import Mathlib

/-!
# AI_Mixer: verification of the Curator / Workflow core

Shallow embedding, in Lean 4, of the matching/ranking engine (Curator) and the
pipeline-orchestration state machine (Workflow) of the AI_Mixer repository.

Source files embedded:
* `src/mixer/agents/curator.py` — compatibility scoring, Camelot distance,
  mashup-type recommendation, `find_match`;
* `src/mixer/memory/queries.py` — catalog queries (`query_harmonic`,
  `query_semantic`, `query_hybrid`, `_get_compatible_keys`, `_camelot_distance`);
* `src/mixer/workflow/graph.py` and `src/mixer/workflow/nodes.py` — the
  LangGraph workflow (nodes, conditional edges, error handler).

Modelling conventions:
* Python floats are modelled as rationals (`ℚ`); the numeric literals of the
  source (`0.35`, `0.05`, …) are exact decimal fractions, so no rounding issue
  arises at the granularity of the proved claims.
* Fallible Python code is modelled with `Except String`/`Option`; an uncaught
  Python exception is an `.error` value.
* `dict.get(key, default)` on optional metadata fields is `Option.getD`.
* Python `set` iteration order is unspecified (hash-based); sets whose
  iteration order is observed by the code are modelled as
  insertion-ordered duplicate-free lists, making one possible execution
  order explicit.  Membership-only uses of sets are modelled as plain lists.
* `config.get(key, default)`: the repository's built-in configuration
  (`src/mixer/config.py`) supplies `curator.bpm_tolerance = 0.05` and no
  `curator.weight_*` keys, so the in-code defaults `0.35/0.30/0.20/0.15`
  apply; these defaults are inlined.
* Human-readable reason/progress strings are kept structurally (one string
  per source-emitted message) but numeric interpolation (`f"{x:.1f}"`) is
  elided from their text, as no claim depends on it.
-/

namespace AIMixer

/-! ## Camelot keys

Model of Python `int(s)` restricted to the digit-string case: the source only
applies it to `camelot[:-1]`; any string that is not a plain decimal numeral
makes `int` raise `ValueError`, modelled as `none`. -/
def digitsToNat : List Char → Option Nat
  | [] => none
  | cs =>
    if cs.all Char.isDigit then
      some (cs.foldl (fun a c => a * 10 + (c.toNat - 48)) 0)
    else none

/-- Parsing shared by both Camelot-distance implementations:
`num = int(camelot[:-1]); letter = camelot[-1]` (raises on empty string or
non-numeric prefix, modelled as `none`). -/
def parseCamelot (s : String) : Option (Nat × Char) :=
  match digitsToNat s.data.dropLast, s.data.getLast? with
  | some n, some c => some (n, c)
  | _, _ => none

/-- `src/mixer/agents/curator.py::_calculate_camelot_distance`.
Invalid formats are caught (`except (ValueError, IndexError)`) and yield 6. -/
def curatorCamelotDistance (camelot_a camelot_b : String) : Int :=
  if camelot_a = camelot_b then 0
  else
    match parseCamelot camelot_a, parseCamelot camelot_b with
    | some (num_a, letter_a), some (num_b, letter_b) =>
      let wheel_dist : Int :=
        min (((num_a : Int) - num_b).natAbs : Int)
            (12 - (((num_a : Int) - num_b).natAbs : Int))
      if num_a = num_b ∧ letter_a ≠ letter_b then 1
      else if letter_a = letter_b then wheel_dist
      else wheel_dist + 1
    | _, _ => 6

/-- `src/mixer/memory/queries.py::_camelot_distance`.
Here the parse is *not* guarded: an invalid key raises (modelled `none`). -/
def queriesCamelotDistance (key1 key2 : String) : Option Int :=
  if key1 = key2 then some 0
  else
    match parseCamelot key1, parseCamelot key2 with
    | some (num1, letter1), some (num2, letter2) =>
      if num1 = num2 then some 1
      else
        let distance : Int :=
          min (((num1 : Int) - num2).natAbs : Int)
              (12 - (((num1 : Int) - num2).natAbs : Int))
        some (if letter1 ≠ letter2 then distance + 1 else distance)
    | _, _ => none

/-- The 24 canonical Camelot keys (12 wheel positions × inner `A` / outer `B`). -/
def validKeys : List String :=
  ["1A", "2A", "3A", "4A", "5A", "6A", "7A", "8A", "9A", "10A", "11A", "12A",
   "1B", "2B", "3B", "4B", "5B", "6B", "7B", "8B", "9B", "10B", "11B", "12B"]

/-- The circular wheel distance *as the spec words it* (for the refinement
comparison of claim C5): `min(|Δpos|, 12 − |Δpos|)`, on parsed keys. -/
def specWheelDist (k1 k2 : String) : Int :=
  match parseCamelot k1, parseCamelot k2 with
  | some (n1, _), some (n2, _) =>
    min (((n1 : Int) - n2).natAbs : Int) (12 - (((n1 : Int) - n2).natAbs : Int))
  | _, _ => 0

/-- Wheel position (parse helper for statements over valid keys). -/
def keyPos (k : String) : Nat := ((parseCamelot k).map Prod.fst).getD 0

/-- Mode letter (parse helper for statements over valid keys). -/
def keyMode (k : String) : Char := ((parseCamelot k).map Prod.snd).getD 'A'

/-! ## Data model (`src/mixer/types.py`, fields read by the embedded code)

Only the metadata fields actually read by the curator / queries / workflow code
are modelled; each is optional (`dict.get` duck typing in the source). -/

/-- One section record (`sections[]` entries); fields read by
`recommend_mashup_type`. -/
structure SongSection where
  lyrical_function : Option String
  vocal_density : Option String
  themes : List String
deriving DecidableEq, Repr

/-- Song metadata; fields read by the embedded curator / query / workflow code.
`none` models both an absent key and an explicit `None`. -/
structure SongMetadata where
  bpm : Option ℚ
  camelot : Option String
  energy_level : Option ℚ
  primary_genre : Option String
  has_vocals : Option Bool
  sections : Option (List SongSection)
  mood_summary : Option String
  artist : Option String
  title : Option String
deriving DecidableEq, Repr

/-- Python truthiness of the `sections` value: absent/`None`/`[]` are falsy. -/
def sectionsTruthy (m : SongMetadata) : Bool :=
  match m.sections with
  | some (_ :: _) => true
  | _ => false

/-- Python truthiness of an optional string (`None` and `""` are falsy). -/
def strTruthy (o : Option String) : Bool := o.getD "" ≠ ""

/-! ## CompatibilityScorer (`src/mixer/agents/curator.py`) -/

/-- The four factor weights of `calculate_compatibility_score`. -/
structure Weights where
  bpm : ℚ
  key : ℚ
  energy : ℚ
  genre : ℚ
deriving DecidableEq, Repr

/-- Default weights: `config.get("curator.weight_*", …)`; the built-in config
has no `curator.weight_*` keys, so the in-code defaults apply. -/
def defaultWeights : Weights := ⟨35/100, 30/100, 20/100, 15/100⟩

/-- `src/mixer/agents/curator.py::calculate_compatibility_score`.
Returns `(total_score, match_reasons)`. The division
`abs(bpm_a - bpm_b) / bpm_a` is unguarded in the source: `bpm_a = 0` raises
`ZeroDivisionError`, modelled as `.error`. Reason strings are kept one per
factor with the numeric interpolation elided. -/
def calculate_compatibility_score (song_a_meta song_b_meta : SongMetadata)
    (weights : Option Weights := none) : Except String (ℚ × List String) :=
  let w := weights.getD defaultWeights
  let bpm_a := song_a_meta.bpm.getD 120
  let bpm_b := song_b_meta.bpm.getD 120
  if bpm_a = 0 then .error "ZeroDivisionError" else
  let bpm_diff_pct := |bpm_a - bpm_b| / bpm_a
  let bpm_score := max 0 (1 - bpm_diff_pct / (1/10))
  let bpm_reason :=
    if bpm_diff_pct < 2/100 then "BPM: (perfect match, <2% diff)"
    else if bpm_diff_pct < 5/100 then "BPM: (excellent match)"
    else "BPM: (diff)"
  let camelot_a := song_a_meta.camelot.getD "8B"
  let camelot_b := song_b_meta.camelot.getD "8B"
  let key_distance := curatorCamelotDistance camelot_a camelot_b
  let key_score := max 0 (1 - (key_distance : ℚ) / 6)
  let key_reason :=
    if key_distance = 0 then "Key: (perfect match)"
    else if key_distance = 1 then "Key: (adjacent on Camelot wheel)"
    else "Key: (distance)"
  let energy_a := song_a_meta.energy_level.getD 5 / 10
  let energy_b := song_b_meta.energy_level.getD 5 / 10
  let energy_diff := |energy_a - energy_b|
  let energy_score := max 0 (1 - energy_diff)
  let energy_reason :=
    if energy_diff < 15/100 then "Energy: (similar vibe)" else "Energy: (contrast)"
  let genre_a := song_a_meta.primary_genre.getD "Unknown"
  let genre_b := song_b_meta.primary_genre.getD "Unknown"
  let genre_score : ℚ := if genre_a = genre_b then 1 else 1/2
  let genre_reason :=
    if genre_a = genre_b then "Genre: (same genre)" else "Genre: (cross-genre blend)"
  let total_score :=
    bpm_score * w.bpm + key_score * w.key + energy_score * w.energy +
      genre_score * w.genre
  let total_score := min 1 (max 0 total_score)
  .ok (total_score, [bpm_reason, key_reason, energy_reason, genre_reason])

/-- A metadata record with every optional field absent (concrete test input). -/
def emptyMeta : SongMetadata :=
  { bpm := none, camelot := none, energy_level := none, primary_genre := none
    has_vocals := none, sections := none, mood_summary := none, artist := none
    title := none }

/-! ## MashupTypeSelector (`src/mixer/agents/curator.py::recommend_mashup_type`) -/

/-- `config_suggestion` dictionary built by `recommend_mashup_type`. -/
structure ConfigSuggestion where
  song_a_id : String
  song_b_id : String
  theme : Option String
deriving DecidableEq, Repr

/-- `MashupRecommendation` result record. -/
structure MashupRecommendation where
  mashup_type : String
  confidence : ℚ
  reasoning : String
  config_suggestion : ConfigSuggestion
deriving DecidableEq, Repr

/-- Insertion-ordered model of adding one element to a Python `set`. -/
def setInsert (l : List String) (x : String) : List String :=
  if x ∈ l then l else l ++ [x]

/-- Insertion-ordered model of `set.update(iterable)`. -/
def setUpdate (l : List String) (xs : List String) : List String :=
  xs.foldl setInsert l

/-- Accumulated theme set of a section list:
`for section in sections: themes.update(section.get("themes", []))`. -/
def accThemes (sections : List SongSection) : List String :=
  sections.foldl (fun acc s => setUpdate acc s.themes) []

/-- Model of Python `set & set`, iterated in left-operand insertion order. -/
def setInter (a b : List String) : List String := a.filter (· ∈ b)

/-- Lyrical-function tags of a section list
(`set(s.get("lyrical_function", "") for s in sections)`; only membership is
observed, so a plain list suffices). -/
def funcsOf (sections : List SongSection) : List String :=
  sections.map (fun s => s.lyrical_function.getD "")

/-- Vocal-density tags of a section list (membership only). -/
def densitiesOf (sections : List SongSection) : List String :=
  sections.map (fun s => s.vocal_density.getD "")

/-- `src/mixer/agents/curator.py::recommend_mashup_type`.
The decision tree over a song pair; recommendations are accumulated in source
order and `max(…, key=confidence)` picks the *first* highest-confidence entry
(Python `max` semantics).  Reason strings elide numeric interpolation. -/
def recommend_mashup_type (song_a_meta song_b_meta : SongMetadata) :
    MashupRecommendation :=
  let has_sections_a := sectionsTruthy song_a_meta
  let has_sections_b := sectionsTruthy song_b_meta
  let has_sections := has_sections_a && has_sections_b
  let key_distance := curatorCamelotDistance (song_a_meta.camelot.getD "8B")
    (song_b_meta.camelot.getD "8B")
  let has_vocals_a := song_a_meta.has_vocals.getD true
  let has_vocals_b := song_b_meta.has_vocals.getD true
  let recommendations : List (String × ℚ × String) :=
    if decide (2 < key_distance) && has_vocals_a && has_vocals_b then
      [("ADAPTIVE_HARMONY", 9/10,
        "Keys are steps apart - pitch-shifting will fix clash")]
    else []
  let sections_a := song_a_meta.sections.getD []
  let sections_b := song_b_meta.sections.getD []
  let recommendations :=
    if has_sections then
      let funcs_a := funcsOf sections_a
      let funcs_b := funcsOf sections_b
      let recommendations :=
        if (funcs_a.contains "question" && funcs_b.contains "answer") ||
            ((funcs_a.contains "narrative" || funcs_b.contains "narrative") &&
             (funcs_a.contains "reflection" || funcs_b.contains "reflection")) then
          recommendations ++
            [("CONVERSATIONAL", 85/100,
              "Songs have complementary lyrical functions")]
        else recommendations
      let common_themes := setInter (accThemes sections_a) (accThemes sections_b)
      let recommendations :=
        match common_themes with
        | theme :: _ =>
          recommendations ++
            [("THEME_FUSION", 80/100, "Shared theme: " ++ theme)]
        | [] => recommendations
      let densities_a := densitiesOf sections_a
      let densities_b := densitiesOf sections_b
      if (densities_a.contains "dense" || densities_b.contains "dense") &&
          (densities_a.contains "sparse" || densities_b.contains "sparse") then
        recommendations ++
          [("ROLE_AWARE", 75/100, "Contrasting vocal densities")]
      else recommendations
    else recommendations
  let recommendations :=
    if has_vocals_a && has_vocals_b then
      recommendations ++ [("CLASSIC", 70/100, "Both songs have vocals")]
    else if has_vocals_a || has_vocals_b then
      recommendations ++ [("CLASSIC", 60/100, "One song has vocals")]
    else recommendations
  let recommendations :=
    if recommendations.isEmpty then
      [("CLASSIC", 1/2, "Default mashup type (no special characteristics detected)")]
    else recommendations
  let best :=
    match recommendations with
    | [] => ("CLASSIC", (1 : ℚ)/2, "Default mashup type (no special characteristics detected)")
    | r :: rs =>
      rs.foldl (fun (acc x : String × ℚ × String) =>
        if acc.2.1 < x.2.1 then x else acc) r
  let theme_suggestion :=
    if best.1 = "THEME_FUSION" && has_sections then (accThemes sections_a).head?
    else none
  { mashup_type := best.1
    confidence := best.2.1
    reasoning := best.2.2
    config_suggestion :=
      { song_a_id := song_a_meta.artist.getD "unknown" ++ "_" ++
          song_a_meta.title.getD "unknown"
        song_b_id := song_b_meta.artist.getD "unknown" ++ "_" ++
          song_b_meta.title.getD "unknown"
        theme := theme_suggestion } }

/-- Concrete song A for scenario C: one section, themes accumulated in the
order `["hope", "love"]`. -/
def scenarioCSongA : SongMetadata :=
  { emptyMeta with
    sections := some [⟨some "verse", some "medium", ["hope", "love"]⟩] }

/-- Concrete song B for scenario C: one section, themes `["love", "loss"]`. -/
def scenarioCSongB : SongMetadata :=
  { emptyMeta with
    sections := some [⟨some "verse", some "medium", ["love", "loss"]⟩] }

/-- Scenario-C song A with themes accumulated in the order `["love", "hope"]`. -/
def scenarioCSongALoveFirst : SongMetadata :=
  { emptyMeta with
    sections := some [⟨some "verse", some "medium", ["love", "hope"]⟩] }

/-! ## Catalog store model (`src/mixer/memory/queries.py`)

The ChromaDB collection is a list of records in stable catalog order; the
embedding distance of the external vector index is an oracle
`sem : queryText → songId → distance`. -/

/-- One catalog record (`{"id", "metadata", "document"}`). -/
structure Entry where
  id : String
  metadata : SongMetadata
  document : String
deriving DecidableEq, Repr

/-- The catalog contents in stable order. -/
abbrev Library := List Entry

/-- `queries.py::get_song` (`collection.get(ids=[song_id])`). -/
def get_song (lib : Library) (song_id : String) : Option Entry :=
  lib.find? (fun e => e.id == song_id)

/-- `MatchResult` record returned by the query functions. -/
structure MatchResult where
  id : String
  compatibility_score : ℚ
  metadata : SongMetadata
  match_reasons : List String
deriving DecidableEq, Repr

/-- Effectful map over `Except` (the loop bodies of `query_harmonic` and of
`_enhance_match_result` in `find_match`: stop at the first raised
exception). -/
def mapExcept {α β : Type} (f : α → Except String β) :
    List α → Except String (List β)
  | [] => .ok []
  | x :: xs =>
    match f x with
    | .error e => .error e
    | .ok y =>
      match mapExcept f xs with
      | .error e => .error e
      | .ok ys => .ok (y :: ys)

/-- Stable insertion into a descending-sorted list: the new element goes after
every element with key ≥ its own. -/
def insertDesc {α : Type} (f : α → ℚ) (x : α) : List α → List α
  | [] => [x]
  | y :: ys => if f x ≤ f y then y :: insertDesc f x ys else x :: y :: ys

/-- Stable sort by key, descending
(model of Python `list.sort(key=…, reverse=True)`, which is stable). -/
def sortByDesc {α : Type} (f : α → ℚ) (l : List α) : List α :=
  l.foldl (fun acc x => insertDesc f x acc) []

/-- Stable insertion into an ascending-sorted list. -/
def insertAsc {α : Type} (f : α → ℚ) (x : α) : List α → List α
  | [] => [x]
  | y :: ys => if f y ≤ f x then y :: insertAsc f x ys else x :: y :: ys

/-- Stable sort by key, ascending (nearest-neighbour result order). -/
def sortByAsc {α : Type} (f : α → ℚ) (l : List α) : List α :=
  l.foldl (fun acc x => insertAsc f x acc) []

/-- `queries.py::_get_compatible_keys`.  The parse `int(camelot[:-1])` is
unguarded here (no surrounding `try`), so a malformed key of length ≥ 2
raises (`.error`); Python's `%` on a negative argument is Lean's `Int.emod`
(both return a result in `[0, 12)`). -/
def getCompatibleKeys (camelot : String) : Except String (List String) :=
  if camelot.length < 2 then .ok [camelot]
  else
    match digitsToNat camelot.data.dropLast, camelot.data.getLast? with
    | some number, some letter =>
      let adjacent_plus : Int := ((number : Int) % 12) + 1
      let adjacent_minus : Int := (((number : Int) - 2) % 12) + 1
      let opposite_letter : Char := if letter = 'B' then 'A' else 'B'
      .ok [camelot,
           toString adjacent_plus ++ String.singleton letter,
           toString adjacent_minus ++ String.singleton letter,
           toString (number : Int) ++ String.singleton opposite_letter]
    | _, _ => .error "ValueError"

/-- Chroma `where` clause of `query_harmonic`:
`bpm ∈ [bpm_min, bpm_max]` AND `camelot ∈ compatible_keys`
(records missing either metadata key do not match). -/
def harmonicWhere (bpm_min bpm_max : ℚ) (compatible_keys : List String)
    (m : SongMetadata) : Bool :=
  (match m.bpm with
   | some b => decide (bpm_min ≤ b) && decide (b ≤ bpm_max)
   | none => false) &&
  (match m.camelot with
   | some c => compatible_keys.contains c
   | none => false)

/-- `queries.py::query_harmonic`.  An exception inside the body
(`_camelot_distance` on a malformed key, or a missing metadata key) is wrapped
by the surrounding `except` into a `QueryError`, modelled as `.error`. -/
def query_harmonic (lib : Library) (target_bpm : ℚ) (target_key : String)
    (bpm_tolerance : Option ℚ := none) (max_results : Nat := 5)
    (exclude_ids : List String := []) : Except String (List MatchResult) :=
  let tol := bpm_tolerance.getD (5/100)
  let bpm_min := target_bpm * (1 - tol)
  let bpm_max := target_bpm * (1 + tol)
  match getCompatibleKeys target_key with
  | .error e => .error e
  | .ok compatible_keys =>
  let results := lib.filter
    (fun e => harmonicWhere bpm_min bpm_max compatible_keys e.metadata)
  let results := if exclude_ids.isEmpty then results
    else results.filter (fun e => !(exclude_ids.contains e.id))
  match mapExcept (fun e =>
    match e.metadata.bpm, e.metadata.camelot with
    | some bpm, some cam =>
      match queriesCamelotDistance target_key cam with
      | some key_distance =>
        let bpm_diff := |bpm - target_bpm|
        let bpm_score := 1 - bpm_diff / target_bpm
        let key_score := 1 - (key_distance : ℚ) / 6
        let compatibility_score := bpm_score * (6/10) + key_score * (4/10)
        Except.ok
          { id := e.id, compatibility_score := compatibility_score,
            metadata := e.metadata,
            match_reasons := ["BPM: (within range of target)", "Key: (distance)"] }
      | none => Except.error "ValueError"
    | _, _ => Except.error "KeyError") results with
  | .error e => .error e
  | .ok ranked_results =>
    .ok ((sortByDesc (fun r => r.compatibility_score) ranked_results).take
      max_results)

/-- Model of `collection.query(query_texts=[q], n_results=n, where=pred)`:
the `n` nearest `pred`-matching records by embedding distance, ascending
(ties in stable catalog order), paired with their distances. -/
def collectionQuery (lib : Library) (sem : String → String → ℚ)
    (query_text : String) (n_results : Nat) (pred : Entry → Bool) :
    List (Entry × ℚ) :=
  (sortByAsc (fun p => p.2)
    ((lib.filter pred).map (fun e => (e, sem query_text e.id)))).take n_results

/-- `queries.py::query_semantic`.  The similarity score is `1.0 - distance`,
*not* clamped to `[0, 1]`. -/
def query_semantic (lib : Library) (sem : String → String → ℚ)
    (query_text : String) (max_results : Nat := 5)
    (genre_filter : Option String := none)
    (exclude_ids : List String := []) : List MatchResult :=
  let pred : Entry → Bool := fun e =>
    match genre_filter with
    | some g => e.metadata.primary_genre == some g
    | none => true
  let results := collectionQuery lib sem query_text (max_results * 2) pred
  let results := if exclude_ids.isEmpty then results
    else results.filter (fun p => !(exclude_ids.contains p.1.id))
  (results.take max_results).map (fun p =>
    { id := p.1.id, compatibility_score := 1 - p.2, metadata := p.1.metadata,
      match_reasons := ["Semantic similarity", "Mood", "Genre"] })

/-- `queries.py::query_hybrid`: harmonic over-fetch (top 50), semantic rerank
restricted to those candidates, `0.6·harmonic + 0.4·semantic`.  The where
clause `{"$and": [{"$or": [{"id": {"$eq": cid}} …]}]}` is read as restricting
the semantic query to the candidate ids (the source's intent).  Python
truthiness applies to the BPM/key presence test (`0.0` and `""` count as
missing). -/
def query_hybrid (lib : Library) (sem : String → String → ℚ)
    (target_song_id : String) (max_results : Nat := 5)
    (genre_filter : Option String := none)
    (semantic_query : Option String := none) :
    Except String (List MatchResult) :=
  match get_song lib target_song_id with
  | none => Except.error ("Target song not found: " ++ target_song_id)
  | some target =>
    let target_meta := target.metadata
    if target_meta.bpm.getD 0 = 0 ∨ target_meta.camelot.getD "" = "" then
      Except.error ("Target song missing BPM or key: " ++ target_song_id)
    else
      let target_bpm := target_meta.bpm.getD 0
      let target_key := target_meta.camelot.getD ""
      match query_harmonic lib target_bpm target_key none 50
        [target_song_id] with
      | .error e => .error e
      | .ok harmonic_results =>
      if harmonic_results.isEmpty then .ok []
      else
        let candidate_ids := harmonic_results.map (fun r => r.id)
        let semantic_query := semantic_query.getD target.document
        let pred : Entry → Bool := fun e =>
          candidate_ids.contains e.id &&
            (match genre_filter with
             | some g => e.metadata.primary_genre == some g
             | none => true)
        let semantic_results := collectionQuery lib sem semantic_query
          max_results pred
        let hybrid_results := semantic_results.filterMap (fun p =>
          match harmonic_results.find? (fun r => r.id == p.1.id) with
          | none => none
          | some harmonic_match =>
            let harmonic_score := harmonic_match.compatibility_score
            let semantic_score := 1 - p.2
            let hybrid_score := harmonic_score * (6/10) + semantic_score * (4/10)
            some
              { id := p.1.id, compatibility_score := hybrid_score,
                metadata := harmonic_match.metadata,
                match_reasons := ["Hybrid score", "BPM", "Key",
                  "Semantic similarity"] })
        .ok ((sortByDesc (fun r => r.compatibility_score)
          hybrid_results).take max_results)

/-- The three matching strategies of `find_match`. -/
inductive Criteria
  | harmonic | semantic | hybrid
deriving DecidableEq, Repr

/-- `src/mixer/agents/curator.py::find_match`: route to the strategy's query,
truncate to `max_results`, then re-score every result through
`calculate_compatibility_score` (`_enhance_match_result`) — *without*
re-sorting. -/
def find_match (lib : Library) (sem : String → String → ℚ)
    (target_song_id : String) (criteria : Criteria := .hybrid)
    (genre_filter : Option String := none)
    (semantic_query : Option String := none) (max_results : Nat := 5) :
    Except String (List MatchResult) :=
  match get_song lib target_song_id with
  | none => Except.error ("Target song not found: " ++ target_song_id)
  | some target =>
    let target_meta := target.metadata
    let routed : Except String (List MatchResult) :=
      match criteria with
      | .harmonic =>
        query_harmonic lib (target_meta.bpm.getD 120)
          (target_meta.camelot.getD "8B") none (max_results * 2)
          [target_song_id]
      | .semantic =>
        let query_text := if semantic_query.getD "" ≠ "" then
            semantic_query.getD ""
          else target_meta.mood_summary.getD ""
        if query_text = "" then
          Except.error "semantic_query required when target has no mood_summary"
        else
          Except.ok (query_semantic lib sem query_text max_results genre_filter
            [target_song_id])
      | .hybrid =>
        query_hybrid lib sem target_song_id max_results genre_filter
          semantic_query
    match routed with
    | .error e => Except.error e
    | .ok results =>
      mapExcept (fun result =>
        match calculate_compatibility_score target_meta result.metadata none with
        | .ok (score, reasons) =>
          Except.ok { result with
            compatibility_score := score
            match_reasons := reasons }
        | .error e => Except.error e) (results.take max_results)

/-- C4 fixture: target song (bpm 100, key 8B, energy 5, Pop). -/
def metaT4 : SongMetadata :=
  { emptyMeta with
    bpm := some 100
    camelot := some "8B"
    energy_level := some 5
    primary_genre := some "Pop" }

/-- C4 fixture: candidate with slightly-off bpm but matching energy/genre. -/
def metaX4 : SongMetadata := { metaT4 with bpm := some 103 }

/-- C4 fixture: candidate with exact bpm but contrasting energy and genre. -/
def metaY4 : SongMetadata :=
  { metaT4 with energy_level := some 0, primary_genre := some "Rock" }

/-- C4 fixture library. -/
def lib4 : Library :=
  [⟨"target", metaT4, "docT"⟩, ⟨"songX", metaX4, "docX"⟩,
   ⟨"songY", metaY4, "docY"⟩]

/-- C4 fixture semantic oracle (constant distance). -/
def sem4 : String → String → ℚ := fun _ _ => 1/2

/-- The compatibility scores of a query result, in order. -/
def scoresOf : Except String (List MatchResult) → List ℚ
  | .ok l => l.map (fun r => r.compatibility_score)
  | .error _ => []

/-- C4: expected first element of the harmonic `find_match` run on `lib4`
(top-ranked by the harmonic query, re-scored to 0.825 by the enhancer). -/
def c4OutY : MatchResult :=
  { id := "songY", compatibility_score := 33/40, metadata := metaY4
    match_reasons := ["BPM: (perfect match, <2% diff)", "Key: (perfect match)",
      "Energy: (contrast)", "Genre: (cross-genre blend)"] }

/-- C4: expected second element (harmonically weaker, but re-scored to the
*higher* 0.895 by the enhancer). -/
def c4OutX : MatchResult :=
  { id := "songX", compatibility_score := 179/200, metadata := metaX4
    match_reasons := ["BPM: (excellent match)", "Key: (perfect match)",
      "Energy: (similar vibe)", "Genre: (same genre)"] }

/-- C9 witness fixture: `query_harmonic` output elements on `lib4`. -/
def c9HOutT : MatchResult :=
  { id := "target", compatibility_score := 1, metadata := metaT4
    match_reasons := ["BPM: (within range of target)", "Key: (distance)"] }

/-- C9 witness fixture (exact-bpm candidate). -/
def c9HOutY : MatchResult := { c9HOutT with id := "songY", metadata := metaY4 }

/-- C9 witness fixture (3%-off-bpm candidate). -/
def c9HOutX : MatchResult :=
  { c9HOutT with
    id := "songX"
    compatibility_score := 491/500
    metadata := metaX4 }

/-- C9 witness fixture: a `query_semantic` output element on `lib4` with the
constant distance 1/2. -/
def c9SOutT : MatchResult :=
  { id := "target", compatibility_score := 1/2, metadata := metaT4
    match_reasons := ["Semantic similarity", "Mood", "Genre"] }

/-- C9 counterexample oracle: a vector-store distance of 3/2 (e.g. cosine
distance of nearly-opposite embeddings, which ranges over [0, 2]). -/
def semFar : String → String → ℚ := fun _ _ => 3/2

/-! ## Workflow (`src/mixer/workflow/state.py`, `nodes.py`, `graph.py`)

The LangGraph workflow: each node is a state transformer; an uncaught Python
exception inside a node (e.g. a `KeyError` on a state key that was never set)
aborts `app.invoke`, modelled as `.error`.  External collaborators (ingestion,
analysis, engineering, the catalog, the vector index) live in `WEnv`. -/

/-- `state.py::WorkflowStatus`. -/
inductive WorkflowStatus
  | pending | ingesting | analyzing | curating | awaiting_approval
  | engineering | completed | failed
deriving DecidableEq, Repr

/-- `state.py::MashupState` (`TypedDict, total=False`): `none` models a key
that is absent or `None`.  `retry_count` starts at 0 and is only ever
incremented, hence `Nat`. -/
structure MashupState where
  input_source_a : String
  input_source_b : Option String := none
  mashup_type : Option String := none
  status : WorkflowStatus := .pending
  current_step : String := "start"
  error : Option String := none
  retry_count : Nat := 0
  song_a_id : Option String := none
  song_a_path : Option String := none
  song_a_metadata : Option SongMetadata := none
  song_a_cached : Bool := false
  song_b_id : Option String := none
  song_b_path : Option String := none
  song_b_metadata : Option SongMetadata := none
  song_b_cached : Bool := false
  match_candidates : Option (List MatchResult) := none
  selected_match : Option MatchResult := none
  recommended_mashup : Option MashupRecommendation := none
  approved_mashup_type : Option String := none
  mashup_output_path : Option String := none
  progress_messages : List String := []
deriving DecidableEq, Repr

/-- Result of `agents/ingestion.py::ingest_song`. -/
structure IngestResult where
  id : String
  path : String
  cached : Bool
deriving DecidableEq, Repr

/-- External collaborators as seen by the workflow nodes.  `lib` is the
catalog before analysis, `libAfterProfile` after `profile_audio` has upserted
its results; `.error` models the corresponding agent exception
(`IngestionError` / `AnalysisError` / `EngineerError`). -/
structure WEnv where
  lib : Library
  libAfterProfile : Library
  sem : String → String → ℚ
  ingest : String → Except String IngestResult
  profile : String → Except String Unit
  createMashup : String → String → String → Except String String

/-- `nodes.py::ingest_song_a_node`. The `IngestionError` branch is caught and
turned into a FAILED state with `error` set; no exception escapes. -/
def ingest_song_a_node (env : WEnv) (s : MashupState) : MashupState :=
  let s := { s with
    status := .ingesting
    current_step := "ingest_song_a"
    progress_messages := s.progress_messages ++
      ["Ingesting song A from " ++ s.input_source_a ++ "..."] }
  match env.ingest s.input_source_a with
  | .ok result =>
    { s with
      song_a_id := some result.id
      song_a_path := some result.path
      song_a_cached := result.cached
      progress_messages := s.progress_messages ++
        [if result.cached then "Song A already in library: " ++ result.id
         else "Song A ingested: " ++ result.id] }
  | .error e =>
    { s with status := .failed
             error := some ("Failed to ingest song A: " ++ e) }

/-- Tail of `analyze_song_a_node` when the cached-metadata check fails: run
`profile_audio` and re-fetch the song.  A missing `song_a_path` key raises
`KeyError` (uncaught). -/
def analyze_song_a_fresh (env : WEnv) (s : MashupState) (song_a_id : String) :
    Except String MashupState :=
  match s.song_a_path with
  | none => Except.error "KeyError: song_a_path"
  | some path =>
    match env.profile path with
    | .error e =>
      Except.ok { s with status := .failed
                         error := some ("Failed to analyze song A: " ++ e) }
    | .ok _ =>
      match get_song env.libAfterProfile song_a_id with
      | none =>
        Except.ok { s with
          status := .failed
          error := some ("Failed to analyze song A: Analysis completed but metadata not found for " ++ song_a_id) }
      | some updated =>
        Except.ok { s with
          song_a_metadata := some updated.metadata
          progress_messages := s.progress_messages ++
            ["Song A analyzed: sections found"] }

/-- `nodes.py::analyze_song_a_node`.  The entry `logger.info` reads
`state["song_a_id"]` *before* the `try` block: if ingestion failed and the key
was never set, this raises `KeyError` and aborts the run. -/
def analyze_song_a_node (env : WEnv) (s : MashupState) :
    Except String MashupState :=
  match s.song_a_id with
  | none => Except.error "KeyError: song_a_id"
  | some song_a_id =>
    let s := { s with
      status := .analyzing
      current_step := "analyze_song_a"
      progress_messages := s.progress_messages ++
        ["Analyzing song A: " ++ song_a_id ++ "..."] }
    match get_song env.lib song_a_id with
    | some existing =>
      if sectionsTruthy existing.metadata then
        Except.ok { s with
          song_a_metadata := some existing.metadata
          progress_messages := s.progress_messages ++
            ["Song A already analyzed (using cached metadata)"] }
      else analyze_song_a_fresh env s song_a_id
    | none => analyze_song_a_fresh env s song_a_id

/-- `nodes.py::ingest_song_b_node`: skipped (with a log line) when
`input_source_b` is falsy. -/
def ingest_song_b_node (env : WEnv) (s : MashupState) : MashupState :=
  if s.input_source_b.getD "" = "" then
    { s with progress_messages := s.progress_messages ++
        ["No song B provided - curator will find compatible match"] }
  else
    let src := s.input_source_b.getD ""
    let s := { s with
      status := .ingesting
      current_step := "ingest_song_b"
      progress_messages := s.progress_messages ++
        ["Ingesting song B from " ++ src ++ "..."] }
    match env.ingest src with
    | .ok result =>
      { s with
        song_b_id := some result.id
        song_b_path := some result.path
        song_b_cached := result.cached
        progress_messages := s.progress_messages ++
          [if result.cached then "Song B already in library: " ++ result.id
           else "Song B ingested: " ++ result.id] }
    | .error e =>
      { s with status := .failed
               error := some ("Failed to ingest song B: " ++ e) }

/-- Tail of `analyze_song_b_node` when the cached-metadata check fails. -/
def analyze_song_b_fresh (env : WEnv) (s : MashupState) (song_b_id : String) :
    Except String MashupState :=
  match s.song_b_path with
  | none => Except.error "KeyError: song_b_path"
  | some path =>
    match env.profile path with
    | .error e =>
      Except.ok { s with status := .failed
                         error := some ("Failed to analyze song B: " ++ e) }
    | .ok _ =>
      match get_song env.libAfterProfile song_b_id with
      | none =>
        Except.ok { s with
          status := .failed
          error := some ("Failed to analyze song B: Analysis completed but metadata not found for " ++ song_b_id) }
      | some updated =>
        Except.ok { s with
          song_b_metadata := some updated.metadata
          progress_messages := s.progress_messages ++
            ["Song B analyzed: sections found"] }

/-- `nodes.py::analyze_song_b_node`: skipped when `song_b_id` is falsy. -/
def analyze_song_b_node (env : WEnv) (s : MashupState) :
    Except String MashupState :=
  if s.song_b_id.getD "" = "" then Except.ok s
  else
    let song_b_id := s.song_b_id.getD ""
    let s := { s with
      status := .analyzing
      current_step := "analyze_song_b"
      progress_messages := s.progress_messages ++
        ["Analyzing song B: " ++ song_b_id ++ "..."] }
    match get_song env.lib song_b_id with
    | some existing =>
      if sectionsTruthy existing.metadata then
        Except.ok { s with
          song_b_metadata := some existing.metadata
          progress_messages := s.progress_messages ++
            ["Song B already analyzed (using cached metadata)"] }
      else analyze_song_b_fresh env s song_b_id
    | none => analyze_song_b_fresh env s song_b_id

/-- `nodes.py::find_matches_node`: skipped when `song_b_id` truthy; otherwise
runs the curator's hybrid `find_match` with `max_results=5`.  The entry
`logger.info` reads `state["song_a_id"]` before the `try` (KeyError if
absent); a `CuratorError` is caught into a FAILED state. -/
def find_matches_node (env : WEnv) (s : MashupState) :
    Except String MashupState :=
  if strTruthy s.song_b_id then Except.ok s
  else
    match s.song_a_id with
    | none => Except.error "KeyError: song_a_id"
    | some song_a_id =>
      let s := { s with
        status := .curating
        current_step := "find_matches"
        progress_messages := s.progress_messages ++
          ["Finding compatible matches for " ++ song_a_id ++ "..."] }
      match find_match env.lib env.sem song_a_id Criteria.hybrid none none 5 with
      | .ok foundMatches =>
        let s := { s with
          match_candidates := some foundMatches
          progress_messages := s.progress_messages ++
            ["Found compatible matches"] }
        match foundMatches with
        | top :: _ =>
          Except.ok { s with progress_messages := s.progress_messages ++
              ["Top match: " ++ top.id] }
        | [] => Except.ok s
      | .error e =>
        Except.ok { s with status := .failed
                           error := some ("Failed to find matches: " ++ e) }

/-- `nodes.py::await_user_selection_node`: a human-in-the-loop node that, in
this non-interactive implementation, auto-selects the top candidate when one
exists and otherwise leaves the selection fields untouched. -/
def await_user_selection_node (s : MashupState) : MashupState :=
  if strTruthy s.song_b_id then s
  else
    let s := { s with
      status := .awaiting_approval
      current_step := "await_user_selection"
      progress_messages := s.progress_messages ++
        ["Awaiting user selection of match..."] }
    match s.match_candidates with
    | some (top_match :: _) =>
      { s with
        selected_match := some top_match
        song_b_id := some top_match.id
        song_b_metadata := some top_match.metadata
        progress_messages := s.progress_messages ++
          ["Auto-selected top match: " ++ top_match.id] }
    | _ => s

/-- `nodes.py::recommend_mashup_type_node`; the missing-metadata
`CuratorError` is caught into a FAILED state. -/
def recommend_mashup_type_node (s : MashupState) : MashupState :=
  let s := { s with
    status := .curating
    current_step := "recommend_mashup_type"
    progress_messages := s.progress_messages ++
      ["Analyzing songs to recommend mashup type..."] }
  match s.song_a_metadata, s.song_b_metadata with
  | some meta_a, some meta_b =>
    let recommendation := recommend_mashup_type meta_a meta_b
    { s with
      recommended_mashup := some recommendation
      progress_messages := s.progress_messages ++
        ["Recommended: " ++ recommendation.mashup_type,
         "Reason: " ++ recommendation.reasoning] }
  | _, _ =>
    { s with
      status := .failed
      error := some "Failed to recommend mashup type: Cannot recommend mashup type - missing song metadata" }

/-- `nodes.py::await_mashup_approval_node`: auto-approves the recommendation
unless the caller pre-specified a type. -/
def await_mashup_approval_node (s : MashupState) : MashupState :=
  let s := { s with
    status := .awaiting_approval
    current_step := "await_mashup_approval"
    progress_messages := s.progress_messages ++
      ["Awaiting user approval of mashup type..."] }
  if s.mashup_type.getD "" = "" then
    match s.recommended_mashup with
    | some r =>
      { s with
        approved_mashup_type := some r.mashup_type
        progress_messages := s.progress_messages ++
          ["Auto-approved recommended type: " ++ r.mashup_type] }
    | none => s
  else
    { s with
      approved_mashup_type := s.mashup_type
      progress_messages := s.progress_messages ++
        ["Using user-specified type"] }

/-- The 8 keys of the engineer dispatch table in `create_mashup_node`. -/
def knownMashupTypes : List String :=
  ["CLASSIC", "STEM_SWAP", "ENERGY_MATCHED", "ADAPTIVE_HARMONY",
   "THEME_FUSION", "SEMANTIC_ALIGNED", "ROLE_AWARE", "CONVERSATIONAL"]

/-- `nodes.py::create_mashup_node`.  `state["song_a_id"]`/`state["song_b_id"]`
are read unconditionally (`KeyError` if absent — not an `EngineerError`, so
uncaught);  an unknown type or `EngineerError` is caught into FAILED. -/
def create_mashup_node (env : WEnv) (s : MashupState) :
    Except String MashupState :=
  let s := { s with status := .engineering, current_step := "create_mashup" }
  let mashup_type := s.approved_mashup_type.getD "CLASSIC"
  let s := { s with progress_messages := s.progress_messages ++
      ["Creating " ++ mashup_type ++ " mashup..."] }
  match s.song_a_id, s.song_b_id with
  | some song_a_id, some song_b_id =>
    if knownMashupTypes.contains mashup_type then
      match env.createMashup mashup_type song_a_id song_b_id with
      | .ok output_path =>
        Except.ok { s with
          mashup_output_path := some output_path
          status := .completed
          progress_messages := s.progress_messages ++
            ["Mashup created: " ++ output_path] }
      | .error e =>
        Except.ok { s with status := .failed
                           error := some ("Failed to create mashup: " ++ e) }
    else
      Except.ok { s with
        status := .failed
        error := some ("Failed to create mashup: Unknown mashup type: " ++ mashup_type) }
  | _, _ => Except.error "KeyError: song ids"

/-- `nodes.py::error_handler_node`: increments `retry_count` and clears
`error` while under the cap of 3; otherwise leaves both untouched. -/
def error_handler_node (s : MashupState) : MashupState :=
  let max_retries := 3
  let current_retries := s.retry_count
  if current_retries < max_retries then
    { s with
      retry_count := current_retries + 1
      progress_messages := s.progress_messages ++
        ["Error encountered, retrying..."]
      error := none }
  else
    { s with progress_messages := s.progress_messages ++
        ["Max retries exceeded, workflow failed"] }

/-- The workflow's nodes, as added by `graph.py::create_mashup_workflow`. -/
inductive WNode
  | ingest_song_a | analyze_song_a | ingest_song_b | analyze_song_b
  | find_matches | await_user_selection | recommend_mashup_type
  | await_mashup_approval | create_mashup | error_handler
deriving DecidableEq, Repr

/-- `graph.py::should_find_matches` (conditional edge after `analyze_song_a`):
routes on `state.get("song_b_id")`. -/
def should_find_matches (s : MashupState) : String :=
  if strTruthy s.song_b_id then "recommend_type" else "find_matches"

/-- `graph.py::has_match_selected` (conditional edge after
`await_user_selection`). -/
def has_match_selected (s : MashupState) : String :=
  if strTruthy s.song_b_id then "recommend_type" else "await_selection"

/-- `graph.py::should_continue_after_error` — defined in the source but never
attached to any edge of the graph. -/
def should_continue_after_error (s : MashupState) : String :=
  if s.error.isNone then "retry" else "end"

/-- The edges of `create_mashup_workflow`: the node executed after `n`, given
the state `n` returned; `none` is `END`.  The conditional after
`analyze_song_a` maps `"recommend_type" ↦ ingest_song_b` and
`"find_matches" ↦ find_matches`; the one after `await_user_selection` maps
`"await_selection"` back to itself.  `error_handler` is added as a node but
the source wires no edge into it (and none out of it). -/
def nextNode (n : WNode) (s : MashupState) : Option WNode :=
  match n with
  | .ingest_song_a => some .analyze_song_a
  | .analyze_song_a =>
    if should_find_matches s = "recommend_type" then some .ingest_song_b
    else some .find_matches
  | .ingest_song_b => some .analyze_song_b
  | .analyze_song_b => some .recommend_mashup_type
  | .find_matches => some .await_user_selection
  | .await_user_selection =>
    if has_match_selected s = "recommend_type" then some .recommend_mashup_type
    else some .await_user_selection
  | .recommend_mashup_type => some .await_mashup_approval
  | .await_mashup_approval => some .create_mashup
  | .create_mashup => none
  | .error_handler => none

/-- Execute one node. -/
def runNode (env : WEnv) (n : WNode) (s : MashupState) :
    Except String MashupState :=
  match n with
  | .ingest_song_a => Except.ok (ingest_song_a_node env s)
  | .analyze_song_a => analyze_song_a_node env s
  | .ingest_song_b => Except.ok (ingest_song_b_node env s)
  | .analyze_song_b => analyze_song_b_node env s
  | .find_matches => find_matches_node env s
  | .await_user_selection => Except.ok (await_user_selection_node s)
  | .recommend_mashup_type => Except.ok (recommend_mashup_type_node s)
  | .await_mashup_approval => Except.ok (await_mashup_approval_node s)
  | .create_mashup => create_mashup_node env s
  | .error_handler => Except.ok (error_handler_node s)

/-- Outcome of a bounded run: reached `END`, aborted on an uncaught node
exception (carrying the state handed to the crashing node), or ran out of
fuel (LangGraph's recursion limit) at some node. -/
inductive RunResult
  | finished (s : MashupState)
  | crashed (err : String) (node : WNode) (stateBefore : MashupState)
  | outOfFuel (n : WNode) (s : MashupState)
deriving DecidableEq, Repr

/-- Execute the compiled graph from node `n` on state `s` for at most `fuel`
node executions, returning the trace of executed nodes and the outcome. -/
def runFrom (env : WEnv) : Nat → WNode → MashupState → List WNode × RunResult
  | 0, n, s => ([], .outOfFuel n s)
  | fuel + 1, n, s =>
    match runNode env n s with
    | .error e => ([n], .crashed e n s)
    | .ok s2 =>
      match nextNode n s2 with
      | none => ([n], .finished s2)
      | some n2 =>
        let rest := runFrom env fuel n2 s2
        (n :: rest.1, rest.2)

/-- `graph.py::run_mashup_workflow`'s initial state. -/
def initialState (input_source_a : String) (input_source_b : Option String)
    (mashup_type : Option String) : MashupState :=
  { input_source_a := input_source_a
    input_source_b := input_source_b
    mashup_type := mashup_type
    status := .pending
    current_step := "start"
    error := none
    retry_count := 0
    song_a_cached := false
    song_b_cached := false
    progress_messages := [] }

/-- A full workflow run from the entry point `ingest_song_a`. -/
def runWorkflow (env : WEnv) (fuel : Nat) (input_source_a : String)
    (input_source_b : Option String := none)
    (mashup_type : Option String := none) : List WNode × RunResult :=
  runFrom env fuel .ingest_song_a
    (initialState input_source_a input_source_b mashup_type)

/-- The state attained by a run outcome. -/
def resultState : RunResult → MashupState
  | .finished s => s
  | .crashed _ _ s => s
  | .outOfFuel _ s => s

/-- Whether a run aborted with an uncaught exception. -/
def isCrashed : RunResult → Bool
  | .crashed _ _ _ => true
  | _ => false

/-- Number of `"Ingesting song A …"` lines in a state's progress log (one per
ingestion attempt for song A). -/
def ingestAttemptsA (s : MashupState) : Nat :=
  s.progress_messages.countP (fun m => "Ingesting song A".data.isPrefixOf m.data)

/-! ### Concrete run fixtures -/

/-- Analyzed metadata of the concrete catalog song A. -/
def concreteMetaA : SongMetadata :=
  { bpm := some 100, camelot := some "8B", energy_level := some 5
    primary_genre := some "Pop", has_vocals := some true
    sections := some [⟨some "verse", some "medium", ["love"]⟩]
    mood_summary := some "upbeat", artist := some "ArtistA"
    title := some "SongA" }

/-- Analyzed metadata of a fully compatible catalog candidate. -/
def concreteMetaB2 : SongMetadata :=
  { concreteMetaA with artist := some "ArtistB", title := some "SongB2" }

/-- Catalog record of song A. -/
def entryA : Entry := ⟨"songA", concreteMetaA, "docA"⟩

/-- Catalog record of the compatible candidate. -/
def entryB2 : Entry := ⟨"songB2", concreteMetaB2, "docB2"⟩

/-- Environment for the concrete sourced-B run: both sources ingest fine, the
catalog already holds analyzed song A and one compatible candidate, and the
engineer succeeds. -/
def c1Env : WEnv :=
  { lib := [entryA, entryB2]
    libAfterProfile := [entryA, entryB2]
    sem := fun _ _ => 1/2
    ingest := fun src =>
      if src = "a.mp3" then .ok ⟨"songA", "/cache/a.wav", true⟩
      else .ok ⟨"songB", "/cache/b.wav", false⟩
    profile := fun _ => .ok ()
    createMashup := fun _ _ _ => .ok "/out/mashup.mp3" }

/-- Environment in which every ingestion attempt raises `IngestionError`. -/
def c2Env : WEnv :=
  { lib := []
    libAfterProfile := []
    sem := fun _ _ => 0
    ingest := fun _ => .error "IngestionError: network failure"
    profile := fun _ => .ok ()
    createMashup := fun _ _ _ => .ok "/out/mashup.mp3" }

/-- A state as left by a `find_matches` stage that found no candidates
(song B undetermined, `match_candidates = []`). -/
def emptyCandidatesState : MashupState :=
  { initialState "a.mp3" none none with
    song_a_id := some "songA"
    song_a_metadata := some concreteMetaA
    status := .curating
    current_step := "find_matches"
    match_candidates := some ([] : List MatchResult) }

end AIMixer

namespace AIMixer

/-- C6: over the 24 valid Camelot keys, both Camelot-distance implementations
return an integer in `[0, 7]`, are reflexive (`distance(k,k) = 0`) and
symmetric. -/
theorem camelot_distance_range_refl_symm :
    ∀ k1 ∈ validKeys, ∀ k2 ∈ validKeys,
      (0 ≤ curatorCamelotDistance k1 k2 ∧ curatorCamelotDistance k1 k2 ≤ 7 ∧
        curatorCamelotDistance k1 k1 = 0 ∧
        curatorCamelotDistance k1 k2 = curatorCamelotDistance k2 k1) ∧
      ∃ d : Int, queriesCamelotDistance k1 k2 = some d ∧
        0 ≤ d ∧ d ≤ 7 ∧ queriesCamelotDistance k1 k1 = some 0 ∧
        queriesCamelotDistance k2 k1 = some d := by
  decide

/-- Witness for C6 at the concrete pair `("8B", "9A")`. -/
theorem camelot_distance_range_refl_symm_witness :
    (0 ≤ curatorCamelotDistance "8B" "9A" ∧ curatorCamelotDistance "8B" "9A" ≤ 7 ∧
      curatorCamelotDistance "8B" "8B" = 0 ∧
      curatorCamelotDistance "8B" "9A" = curatorCamelotDistance "9A" "8B") ∧
    ∃ d : Int, queriesCamelotDistance "8B" "9A" = some d ∧
      0 ≤ d ∧ d ≤ 7 ∧ queriesCamelotDistance "8B" "8B" = some 0 ∧
      queriesCamelotDistance "9A" "8B" = some d :=
  camelot_distance_range_refl_symm "8B" (by decide) "9A" (by decide)

/-- C5 counterexample: the claim asserts that the two Camelot-distance
implementations *disagree* on some valid pair with different wheel position and
different mode (one returning the wheel distance, the other wheel distance + 1).
In fact they agree on every pair of valid keys, so no such pair exists. -/
theorem camelot_impls_never_disagree :
    (validKeys.all fun k1 => validKeys.all fun k2 =>
      decide (queriesCamelotDistance k1 k2 =
        some (curatorCamelotDistance k1 k2))) = true := by
  decide

/-- C5 amended: on every pair of valid Camelot keys with different wheel
position *and* different mode, the two implementations agree, and both return
the circular wheel distance **plus one** (the spec's "+1 variant"). -/
theorem camelot_impls_agree_wheel_plus_one :
    ∀ k1 ∈ validKeys, ∀ k2 ∈ validKeys,
      keyPos k1 ≠ keyPos k2 → keyMode k1 ≠ keyMode k2 →
      curatorCamelotDistance k1 k2 = specWheelDist k1 k2 + 1 ∧
      queriesCamelotDistance k1 k2 = some (specWheelDist k1 k2 + 1) := by
  decide

/-- Witness for the amended C5 at `("8B", "9A")` (positions 8 ≠ 9, modes B ≠ A). -/
theorem camelot_impls_agree_wheel_plus_one_witness :
    curatorCamelotDistance "8B" "9A" = specWheelDist "8B" "9A" + 1 ∧
    queriesCamelotDistance "8B" "9A" = some (specWheelDist "8B" "9A" + 1) :=
  camelot_impls_agree_wheel_plus_one "8B" (by decide) "9A" (by decide)
    (by decide) (by decide)

end AIMixer

namespace AIMixer

/-- C3 counterexample: with song A's `bpm = 0` the compatibility scorer *does*
raise (`ZeroDivisionError` from `abs(bpm_a - bpm_b) / bpm_a`); it does not
return a score.  Concrete input: song A with `bpm = 0`, song B with
`bpm = 120`, all other fields absent. -/
theorem scorer_raises_on_zero_bpm :
    calculate_compatibility_score { emptyMeta with bpm := some 0 }
      { emptyMeta with bpm := some 120 } none = .error "ZeroDivisionError" := by
  rfl

/-- C3 amended: the division by `bpm_a` is *not* guarded.  The scorer raises
`ZeroDivisionError` exactly when song A's bpm (after the `120.0` default)
is `0`; for every other pair it returns a score. -/
theorem scorer_zero_bpm_dichotomy (a b : SongMetadata) (w : Option Weights) :
    (a.bpm.getD 120 = 0 →
      calculate_compatibility_score a b w = .error "ZeroDivisionError") ∧
    (a.bpm.getD 120 ≠ 0 →
      ∃ score reasons,
        calculate_compatibility_score a b w = .ok (score, reasons)) := by
  constructor
  · intro h
    unfold calculate_compatibility_score
    rw [if_pos h]
  · intro h
    unfold calculate_compatibility_score
    rw [if_neg h]
    exact ⟨_, _, rfl⟩

/-- Witness for the amended C3 at concrete inputs (both sides of the
dichotomy). -/
theorem scorer_zero_bpm_dichotomy_witness :
    calculate_compatibility_score { emptyMeta with bpm := some 0 } emptyMeta
        none = .error "ZeroDivisionError" ∧
    ∃ score reasons,
      calculate_compatibility_score emptyMeta emptyMeta none =
        .ok (score, reasons) :=
  ⟨(scorer_zero_bpm_dichotomy { emptyMeta with bpm := some 0 } emptyMeta
      none).1 (by decide),
   (scorer_zero_bpm_dichotomy emptyMeta emptyMeta none).2 (by decide)⟩

/-- C8: for every song metadata whose bpm is positive or absent, comparing the
song with itself under the default weights yields the score `1`
(in particular at least `0.99`), with one reason per factor. -/
theorem self_compatibility_score_one (s : SongMetadata)
    (h : s.bpm = none ∨ ∃ q, s.bpm = some q ∧ 0 < q) :
    calculate_compatibility_score s s none =
      .ok (1, ["BPM: (perfect match, <2% diff)", "Key: (perfect match)",
               "Energy: (similar vibe)", "Genre: (same genre)"]) ∧
    (99/100 : ℚ) ≤ 1 := by
  have hne : s.bpm.getD 120 ≠ 0 := by
    rcases h with h | ⟨q, hq, hqpos⟩
    · simp [h]
    · simp only [hq, Option.getD_some]
      exact ne_of_gt hqpos
  refine ⟨?_, by norm_num⟩
  unfold calculate_compatibility_score
  rw [if_neg hne]
  have hkey : curatorCamelotDistance (s.camelot.getD "8B") (s.camelot.getD "8B") = 0 := by
    unfold curatorCamelotDistance
    rw [if_pos rfl]
  simp only [sub_self, abs_zero, zero_div, hkey]
  norm_num [defaultWeights]

/-- Witness for C8 at a concrete song (bpm absent). -/
theorem self_compatibility_score_one_witness :
    calculate_compatibility_score emptyMeta emptyMeta none =
      .ok (1, ["BPM: (perfect match, <2% diff)", "Key: (perfect match)",
               "Energy: (similar vibe)", "Genre: (same genre)"]) ∧
    (99/100 : ℚ) ≤ 1 :=
  self_compatibility_score_one emptyMeta (Or.inl rfl)

end AIMixer

namespace AIMixer

/-- C7 counterexample: a pair whose theme sets are `{"love","hope"}` and
`{"love","loss"}` (intersection `{"love"}`), no stronger rule firing, for which
the selector returns THEME_FUSION at confidence 0.80 but whose
`configSuggestion.theme` is `"hope"`, not `"love"`: the code draws the theme
from song A's *whole* theme set (`list(themes_a)[0]`), not from the overlap,
and song A's accumulation order here yields `"hope"` first. -/
theorem theme_fusion_config_theme_counterexample :
    (recommend_mashup_type scenarioCSongA scenarioCSongB).mashup_type =
      "THEME_FUSION" ∧
    (recommend_mashup_type scenarioCSongA scenarioCSongB).confidence = 80/100 ∧
    (recommend_mashup_type scenarioCSongA scenarioCSongB).config_suggestion.theme =
      some "hope" ∧
    (some "hope" : Option String) ≠ some "love" :=
  ⟨by with_unfolding_all rfl, by with_unfolding_all rfl,
   by with_unfolding_all rfl, by decide⟩

/-- C7 amended: for a pair with sections whose accumulated theme sets are
`{"love","hope"}` and `{"love","loss"}` and no higher-confidence rule firing,
the selector returns THEME_FUSION with confidence 0.80 and the pair ids, but
the `theme` field of the config suggestion is the *first element of song A's
accumulated theme set*, not a chosen overlapping theme; it equals `"love"`
exactly when song A's accumulation order lists `"love"` first. -/
theorem theme_fusion_theme_is_first_of_song_a (a b : SongMetadata)
    (sa sb : List SongSection)
    (hsa : a.sections = some sa) (hsb : b.sections = some sb)
    (hta : accThemes sa = ["love", "hope"])
    (htb : accThemes sb = ["love", "loss"])
    (hkey : curatorCamelotDistance (a.camelot.getD "8B") (b.camelot.getD "8B") ≤ 2)
    (hconv : ((funcsOf sa).contains "question" && (funcsOf sb).contains "answer" ||
        ((funcsOf sa).contains "narrative" || (funcsOf sb).contains "narrative") &&
         ((funcsOf sa).contains "reflection" || (funcsOf sb).contains "reflection"))
        = false)
    (hdens : (((densitiesOf sa).contains "dense" || (densitiesOf sb).contains "dense") &&
        ((densitiesOf sa).contains "sparse" || (densitiesOf sb).contains "sparse"))
        = false)
    (hva : a.has_vocals.getD true = true)
    (hvb : b.has_vocals.getD true = true) :
    (recommend_mashup_type a b).mashup_type = "THEME_FUSION" ∧
    (recommend_mashup_type a b).confidence = 80/100 ∧
    (recommend_mashup_type a b).config_suggestion.theme = some "love" := by
  have hsa0 : sa ≠ [] := by
    intro hnil
    rw [hnil] at hta
    simp [accThemes] at hta
  have hsb0 : sb ≠ [] := by
    intro hnil
    rw [hnil] at htb
    simp [accThemes] at htb
  have hsta : sectionsTruthy a = true := by
    unfold sectionsTruthy
    rw [hsa]
    cases sa with
    | nil => exact absurd rfl hsa0
    | cons x xs => rfl
  have hstb : sectionsTruthy b = true := by
    unfold sectionsTruthy
    rw [hsb]
    cases sb with
    | nil => exact absurd rfl hsb0
    | cons x xs => rfl
  have hkd : decide (2 < curatorCamelotDistance (a.camelot.getD "8B")
      (b.camelot.getD "8B")) = false := decide_eq_false (not_lt.mpr hkey)
  have hcommon : setInter ["love", "hope"] ["love", "loss"] = ["love"] := by
    decide
  simp only [recommend_mashup_type, hsa, hsb, Option.getD_some, hsta, hstb,
    hkd, hconv, hdens, hva, hvb, hta, htb, hcommon, Bool.and_self,
    Bool.false_and, Bool.true_and, Bool.and_true, if_true, if_false,
    Bool.false_eq_true, ite_true, ite_false, List.nil_append,
    List.singleton_append, List.cons_append, List.isEmpty_cons]
  norm_num [List.foldl]

end AIMixer

namespace AIMixer

/-- Witness for the amended C7 at concrete songs whose theme sets accumulate
as `["love","hope"]` and `["love","loss"]`. -/
theorem theme_fusion_theme_is_first_of_song_a_witness :
    (recommend_mashup_type scenarioCSongALoveFirst scenarioCSongB).mashup_type =
      "THEME_FUSION" ∧
    (recommend_mashup_type scenarioCSongALoveFirst scenarioCSongB).confidence =
      80/100 ∧
    (recommend_mashup_type scenarioCSongALoveFirst
      scenarioCSongB).config_suggestion.theme = some "love" :=
  theme_fusion_theme_is_first_of_song_a scenarioCSongALoveFirst scenarioCSongB
    [⟨some "verse", some "medium", ["love", "hope"]⟩]
    [⟨some "verse", some "medium", ["love", "loss"]⟩]
    rfl rfl (by decide) (by decide) (by decide) (by decide) (by decide)
    rfl rfl

end AIMixer

namespace AIMixer

/-- C1 (code evidence): a concrete run with `input_source_b` supplied
(`"b.mp3"`).  The conditional after `analyze_song_a` tests `song_b_id`, which
no prior node ever sets, so the run executes the find-matches (curation)
stage, never executes `ingest_song_b`, and completes with song B bound to the
curator's pick (`"songB2"`) instead of the supplied source. -/
theorem run_with_sourceB_executes_find_matches :
    (runWorkflow c1Env 30 "a.mp3" (some "b.mp3") none).1 =
      [WNode.ingest_song_a, WNode.analyze_song_a, WNode.find_matches,
       WNode.await_user_selection, WNode.recommend_mashup_type,
       WNode.await_mashup_approval, WNode.create_mashup] ∧
    WNode.ingest_song_b ∉ (runWorkflow c1Env 30 "a.mp3" (some "b.mp3") none).1 ∧
    (resultState (runWorkflow c1Env 30 "a.mp3" (some "b.mp3") none).2).song_b_id
      = some "songB2" ∧
    (resultState (runWorkflow c1Env 30 "a.mp3" (some "b.mp3") none).2).status =
      WorkflowStatus.completed := by
  have htrace : (runWorkflow c1Env 30 "a.mp3" (some "b.mp3") none).1 =
      [WNode.ingest_song_a, WNode.analyze_song_a, WNode.find_matches,
       WNode.await_user_selection, WNode.recommend_mashup_type,
       WNode.await_mashup_approval, WNode.create_mashup] := by
    with_unfolding_all rfl
  refine ⟨htrace, ?_, by with_unfolding_all rfl, by with_unfolding_all rfl⟩
  rw [htrace]
  decide

end AIMixer

namespace AIMixer

/-- C2 counterexample: with an ingestion agent that raises on *every* call,
the run does not retry at all.  `ingest_song_a` fails once, the unconditional
edge still advances to `analyze_song_a`, which crashes on the never-set
`song_a_id` key; the error handler is never executed, `retry_count` stays 0,
and the log shows exactly one ingestion attempt — not FAILED/3/4 as claimed. -/
theorem ingest_failure_no_retry_counterexample :
    (runWorkflow c2Env 30 "a.mp3" none none).1 =
      [WNode.ingest_song_a, WNode.analyze_song_a] ∧
    WNode.error_handler ∉ (runWorkflow c2Env 30 "a.mp3" none none).1 ∧
    isCrashed (runWorkflow c2Env 30 "a.mp3" none none).2 = true ∧
    (resultState (runWorkflow c2Env 30 "a.mp3" none none).2).retry_count = 0 ∧
    ingestAttemptsA (resultState (runWorkflow c2Env 30 "a.mp3" none none).2)
      = 1 ∧
    (resultState (runWorkflow c2Env 30 "a.mp3" none none).2).error =
      some "Failed to ingest song A: IngestionError: network failure" := by
  have htrace : (runWorkflow c2Env 30 "a.mp3" none none).1 =
      [WNode.ingest_song_a, WNode.analyze_song_a] := by
    with_unfolding_all rfl
  refine ⟨htrace, ?_, by with_unfolding_all rfl, by with_unfolding_all rfl,
    by with_unfolding_all rfl, by with_unfolding_all rfl⟩
  rw [htrace]
  decide

/-- No edge of the compiled graph leads to the error handler. -/
theorem nextNode_ne_error_handler (n : WNode) (s : MashupState) :
    nextNode n s ≠ some WNode.error_handler := by
  cases n <;> simp [nextNode] <;> split_ifs <;> simp

/-- Starting anywhere other than the error handler, no run ever executes it
(the graph wires no failure edge into `error_handler`). -/
theorem error_handler_unreachable (env : WEnv) :
    ∀ (fuel : Nat) (n : WNode) (s : MashupState), n ≠ WNode.error_handler →
      WNode.error_handler ∉ (runFrom env fuel n s).1 := by
  intro fuel
  induction fuel with
  | zero =>
    intro n s hn
    simp [runFrom]
  | succ k ih =>
    intro n s hn
    match hr : runNode env n s with
    | .error e =>
      simp only [runFrom, hr, List.mem_singleton]
      exact fun h => hn h.symm
    | .ok s2 =>
      match hnx : nextNode n s2 with
      | none =>
        simp only [runFrom, hr, hnx, List.mem_singleton]
        exact fun h => hn h.symm
      | some n2 =>
        simp only [runFrom, hr, hnx, List.mem_cons, not_or]
        refine ⟨fun h => hn h.symm, ?_⟩
        refine ih n2 s2 ?_
        intro h
        rw [h] at hnx
        exact nextNode_ne_error_handler n s2 hnx

/-- C2 amended: `error_handler_node`, *when invoked*, increments `retryCount`
(capped at 3) and clears the error, and leaves both untouched once the cap is
reached — but the graph wires no failure edge into it, so no workflow run ever
executes the error handler and no stage is ever retried. -/
theorem error_handler_increments_but_never_runs :
    (∀ s : MashupState, s.retry_count < 3 →
      (error_handler_node s).retry_count = s.retry_count + 1 ∧
      (error_handler_node s).error = none) ∧
    (∀ s : MashupState, ¬ s.retry_count < 3 →
      (error_handler_node s).retry_count = s.retry_count ∧
      (error_handler_node s).error = s.error) ∧
    (∀ (env : WEnv) (fuel : Nat) (a : String) (b t : Option String),
      WNode.error_handler ∉ (runWorkflow env fuel a b t).1) := by
  refine ⟨?_, ?_, ?_⟩
  · intro s h
    simp [error_handler_node, h]
  · intro s h
    simp [error_handler_node, h]
  · intro env fuel a b t
    exact error_handler_unreachable env fuel _ _ (by decide)

/-- Witness for the amended C2 at a concrete state and a concrete run. -/
theorem error_handler_increments_but_never_runs_witness :
    (error_handler_node (initialState "a.mp3" none none)).retry_count =
      (initialState "a.mp3" none none).retry_count + 1 ∧
    (error_handler_node (initialState "a.mp3" none none)).error = none ∧
    WNode.error_handler ∉ (runWorkflow c2Env 5 "a.mp3" none none).1 :=
  ⟨(error_handler_increments_but_never_runs.1 (initialState "a.mp3" none none)
      (by decide)).1,
   (error_handler_increments_but_never_runs.1 (initialState "a.mp3" none none)
      (by decide)).2,
   error_handler_increments_but_never_runs.2.2 c2Env 5 "a.mp3" none none⟩

end AIMixer

namespace AIMixer

/-- From `await_user_selection` with no candidates and song B unset, every
further step stays at `await_user_selection` and the run only ever exhausts
its fuel (induction kernel of claim C10). -/
theorem await_selection_loop_aux (env : WEnv) :
    ∀ (fuel : Nat) (s : MashupState), s.song_b_id = none →
      s.match_candidates = some [] →
      s.status ≠ WorkflowStatus.completed →
      s.status ≠ WorkflowStatus.failed →
      (∀ n ∈ (runFrom env fuel .await_user_selection s).1,
        n = WNode.await_user_selection) ∧
      ∃ s2, (runFrom env fuel .await_user_selection s).2 =
          RunResult.outOfFuel .await_user_selection s2 ∧
        s2.song_b_id = none ∧ s2.status ≠ WorkflowStatus.completed ∧
        s2.status ≠ WorkflowStatus.failed := by
  intro fuel
  induction fuel with
  | zero =>
    intro s hb hc hs1 hs2
    exact ⟨by simp [runFrom], s, rfl, hb, hs1, hs2⟩
  | succ k ih =>
    intro s hb hc hs1 hs2
    have hnode : await_user_selection_node s =
        { s with status := .awaiting_approval
                 current_step := "await_user_selection"
                 progress_messages := s.progress_messages ++
                   ["Awaiting user selection of match..."] } := by
      simp [await_user_selection_node, strTruthy, hb, hc]
    have hb' : (await_user_selection_node s).song_b_id = none := by
      rw [hnode]; exact hb
    have hc' : (await_user_selection_node s).match_candidates = some [] := by
      rw [hnode]; exact hc
    have hs1' : (await_user_selection_node s).status ≠
        WorkflowStatus.completed := by
      rw [hnode]; simp
    have hs2' : (await_user_selection_node s).status ≠
        WorkflowStatus.failed := by
      rw [hnode]; simp
    have hnext : nextNode .await_user_selection (await_user_selection_node s)
        = some .await_user_selection := by
      simp [nextNode, has_match_selected, strTruthy, hb']
    obtain ⟨htr, s2, h2, h3, h4, h5⟩ :=
      ih (await_user_selection_node s) hb' hc' hs1' hs2'
    have hrun : runFrom env (k + 1) .await_user_selection s =
        (WNode.await_user_selection ::
          (runFrom env k .await_user_selection
            (await_user_selection_node s)).1,
         (runFrom env k .await_user_selection
            (await_user_selection_node s)).2) := by
      simp only [runFrom, runNode, hnext]
    rw [hrun]
    refine ⟨?_, s2, h2, h3, h4, h5⟩
    intro n hn
    rcases List.mem_cons.mp hn with h | h
    · exact h
    · exact htr n h

/-- C10: if the find-matches stage leaves `match_candidates` empty and
`song_b_id` unset, `await_user_selection_node` leaves every field read by the
routing condition unchanged (`song_b_id`, and `match_candidates` too), the
conditional edge routes back to `await_user_selection`, and the workflow loops
there forever — for every fuel bound the run ends `outOfFuel` at
`await_user_selection` with song B still unset and a non-terminal status. -/
theorem await_selection_empty_candidates_loops (env : WEnv) (fuel : Nat)
    (s : MashupState) (hb : s.song_b_id = none)
    (hc : s.match_candidates = some [])
    (hs1 : s.status ≠ WorkflowStatus.completed)
    (hs2 : s.status ≠ WorkflowStatus.failed) :
    ((await_user_selection_node s).song_b_id = s.song_b_id ∧
     (await_user_selection_node s).match_candidates = s.match_candidates ∧
     has_match_selected (await_user_selection_node s) = "await_selection") ∧
    (∀ n ∈ (runFrom env fuel .await_user_selection s).1,
      n = WNode.await_user_selection) ∧
    ∃ s2, (runFrom env fuel .await_user_selection s).2 =
        RunResult.outOfFuel .await_user_selection s2 ∧
      s2.song_b_id = none ∧ s2.status ≠ WorkflowStatus.completed ∧
      s2.status ≠ WorkflowStatus.failed := by
  have hnode : await_user_selection_node s =
      { s with status := .awaiting_approval
               current_step := "await_user_selection"
               progress_messages := s.progress_messages ++
                 ["Awaiting user selection of match..."] } := by
    simp [await_user_selection_node, strTruthy, hb, hc]
  refine ⟨⟨by rw [hnode], by rw [hnode], ?_⟩, ?_, ?_⟩
  · have hb' : (await_user_selection_node s).song_b_id = none := by
      rw [hnode]; exact hb
    simp [has_match_selected, strTruthy, hb']
  · exact (await_selection_loop_aux env fuel s hb hc hs1 hs2).1
  · exact (await_selection_loop_aux env fuel s hb hc hs1 hs2).2

/-- Witness for C10 at a concrete post-`find_matches` state with fuel 5. -/
theorem await_selection_empty_candidates_loops_witness :
    ((await_user_selection_node emptyCandidatesState).song_b_id =
       emptyCandidatesState.song_b_id ∧
     (await_user_selection_node emptyCandidatesState).match_candidates =
       emptyCandidatesState.match_candidates ∧
     has_match_selected (await_user_selection_node emptyCandidatesState) =
       "await_selection") ∧
    (∀ n ∈ (runFrom c2Env 5 .await_user_selection emptyCandidatesState).1,
      n = WNode.await_user_selection) ∧
    ∃ s2, (runFrom c2Env 5 .await_user_selection emptyCandidatesState).2 =
        RunResult.outOfFuel .await_user_selection s2 ∧
      s2.song_b_id = none ∧ s2.status ≠ WorkflowStatus.completed ∧
      s2.status ≠ WorkflowStatus.failed :=
  await_selection_empty_candidates_loops c2Env 5 emptyCandidatesState
    rfl rfl (by decide) (by decide)

end AIMixer

namespace AIMixer

/-! ### Shared inversion lemmas for the query embeddings -/

/-- `mapExcept` preserves length on success. -/
theorem mapExcept_ok_length {α β : Type} (f : α → Except String β) :
    ∀ {l : List α} {out : List β}, mapExcept f l = .ok out →
      out.length = l.length := by
  intro l
  induction l with
  | nil =>
    intro out h
    cases h
    rfl
  | cons x xs ih =>
    intro out h
    unfold mapExcept at h
    cases hfx : f x with
    | error e => rw [hfx] at h; cases h
    | ok y =>
      rw [hfx] at h
      cases hrest : mapExcept f xs with
      | error e => rw [hrest] at h; cases h
      | ok ys =>
        rw [hrest] at h
        cases h
        simp [ih hrest]

/-- Every element of a successful `mapExcept` run comes from applying `f` to
some input element. -/
theorem mapExcept_ok_mem {α β : Type} (f : α → Except String β) :
    ∀ {l : List α} {out : List β}, mapExcept f l = .ok out →
      ∀ b ∈ out, ∃ a ∈ l, f a = .ok b := by
  intro l
  induction l with
  | nil =>
    intro out h b hb
    cases h
    cases hb
  | cons x xs ih =>
    intro out h b hb
    unfold mapExcept at h
    cases hfx : f x with
    | error e => rw [hfx] at h; cases h
    | ok y =>
      rw [hfx] at h
      cases hrest : mapExcept f xs with
      | error e => rw [hrest] at h; cases h
      | ok ys =>
        rw [hrest] at h
        cases h
        rcases List.mem_cons.mp hb with rfl | hb2
        · exact ⟨x, List.mem_cons_self x xs, hfx⟩
        · obtain ⟨a, ha, hfa⟩ := ih hrest b hb2
          exact ⟨a, List.mem_cons_of_mem x ha, hfa⟩

/-- Membership through stable descending insertion. -/
theorem mem_insertDesc {α : Type} (f : α → ℚ) (x : α) :
    ∀ (l : List α) (a : α), a ∈ insertDesc f x l ↔ a = x ∨ a ∈ l := by
  intro l
  induction l with
  | nil =>
    intro a
    simp [insertDesc]
  | cons y ys ih =>
    intro a
    unfold insertDesc
    split_ifs with h
    · simp only [List.mem_cons, ih]
      tauto
    · simp only [List.mem_cons]

/-- Membership through the descending sort's fold. -/
theorem mem_sortByDesc_fold {α : Type} (f : α → ℚ) :
    ∀ (l acc : List α) (a : α),
      a ∈ l.foldl (fun acc x => insertDesc f x acc) acc ↔ a ∈ acc ∨ a ∈ l := by
  intro l
  induction l with
  | nil =>
    intro acc a
    simp
  | cons x xs ih =>
    intro acc a
    simp only [List.foldl_cons, ih, mem_insertDesc, List.mem_cons]
    tauto

/-- `sortByDesc` is membership-preserving. -/
theorem mem_sortByDesc {α : Type} (f : α → ℚ) (l : List α) (a : α) :
    a ∈ sortByDesc f l ↔ a ∈ l := by
  unfold sortByDesc
  rw [mem_sortByDesc_fold]
  simp

/-- Membership through stable ascending insertion. -/
theorem mem_insertAsc {α : Type} (f : α → ℚ) (x : α) :
    ∀ (l : List α) (a : α), a ∈ insertAsc f x l ↔ a = x ∨ a ∈ l := by
  intro l
  induction l with
  | nil =>
    intro a
    simp [insertAsc]
  | cons y ys ih =>
    intro a
    unfold insertAsc
    split_ifs with h
    · simp only [List.mem_cons, ih]
      tauto
    · simp only [List.mem_cons]

/-- Membership through the ascending sort's fold. -/
theorem mem_sortByAsc_fold {α : Type} (f : α → ℚ) :
    ∀ (l acc : List α) (a : α),
      a ∈ l.foldl (fun acc x => insertAsc f x acc) acc ↔ a ∈ acc ∨ a ∈ l := by
  intro l
  induction l with
  | nil =>
    intro acc a
    simp
  | cons x xs ih =>
    intro acc a
    simp only [List.foldl_cons, ih, mem_insertAsc, List.mem_cons]
    tauto

/-- `sortByAsc` is membership-preserving. -/
theorem mem_sortByAsc {α : Type} (f : α → ℚ) (l : List α) (a : α) :
    a ∈ sortByAsc f l ↔ a ∈ l := by
  unfold sortByAsc
  rw [mem_sortByAsc_fold]
  simp

/-- Every element of a `collectionQuery` result is a catalog record matching
the filter, paired with its oracle distance. -/
theorem collectionQuery_mem (lib : Library) (sem : String → String → ℚ)
    (q : String) (n : Nat) (pred : Entry → Bool) (p : Entry × ℚ)
    (hp : p ∈ collectionQuery lib sem q n pred) :
    p.1 ∈ lib ∧ pred p.1 = true ∧ p.2 = sem q p.1.id := by
  unfold collectionQuery at hp
  have hp2 := List.take_subset _ _ hp
  rw [mem_sortByAsc] at hp2
  obtain ⟨e, he, heq⟩ := List.mem_map.mp hp2
  rcases List.mem_filter.mp he with ⟨helib, hepred⟩
  subst heq
  exact ⟨helib, hepred, rfl⟩

end AIMixer

namespace AIMixer

/-- Inversion of a successful `query_harmonic` call: the output has at most
`max_results` elements, and every element arises from a catalog record that
passed the BPM-window/compatible-key `where` filter and the id-exclusion
filter, keeping that record's id and metadata and carrying the documented
`0.6·bpmScore + 0.4·keyScore` value. -/
theorem query_harmonic_ok_inv {lib : Library} {tb : ℚ} {tk : String}
    {tol : Option ℚ} {n : Nat} {ids : List String} {out : List MatchResult}
    (h : query_harmonic lib tb tk tol n ids = .ok out) :
    out.length ≤ n ∧
    ∃ ks, getCompatibleKeys tk = .ok ks ∧
      ∀ r ∈ out, ∃ e : Entry, e ∈ lib ∧
        harmonicWhere (tb * (1 - tol.getD (5/100)))
          (tb * (1 + tol.getD (5/100))) ks e.metadata = true ∧
        ids.contains e.id = false ∧ r.id = e.id ∧ r.metadata = e.metadata ∧
        ∃ (bpm : ℚ) (cam : String) (d : Int),
          e.metadata.bpm = some bpm ∧ e.metadata.camelot = some cam ∧
          queriesCamelotDistance tk cam = some d ∧
          r.compatibility_score =
            (1 - |bpm - tb| / tb) * (6/10) + (1 - (d : ℚ) / 6) * (4/10) := by
  simp only [query_harmonic] at h
  split at h
  · cases h
  · rename_i ks hks
    split at h
    · cases h
    · rename_i ranked hranked
      cases h
      refine ⟨(List.length_take_le _ _), ks, hks, ?_⟩
      intro r hr
      have hr2 := List.take_subset _ _ hr
      rw [mem_sortByDesc] at hr2
      obtain ⟨e, he, hfe⟩ := mapExcept_ok_mem _ hranked r hr2
      have heWhere : e ∈ lib.filter (fun e =>
          harmonicWhere (tb * (1 - tol.getD (5/100)))
            (tb * (1 + tol.getD (5/100))) ks e.metadata) ∧
          ids.contains e.id = false := by
        split at he
        · rename_i hempty
          rw [List.isEmpty_iff] at hempty
          subst hempty
          exact ⟨he, rfl⟩
        · rcases List.mem_filter.mp he with ⟨he1, he2⟩
          refine ⟨he1, ?_⟩
          cases hco : ids.contains e.id
          · rfl
          · rw [hco] at he2
            cases he2
      rcases List.mem_filter.mp heWhere.1 with ⟨helib, hewhere⟩
      refine ⟨e, helib, hewhere, heWhere.2, ?_⟩
      split at hfe
      · rename_i bpm cam hbpm hcam
        split at hfe
        · rename_i d hd
          cases hfe
          exact ⟨rfl, rfl, bpm, cam, d, hbpm, hcam, hd, rfl⟩
        · cases hfe
      · cases hfe

end AIMixer

namespace AIMixer

/-- Every element of a `query_semantic` result survived the exclusion filter,
and carries the *unclamped* similarity score `1 - distance` of some catalog
record. -/
theorem query_semantic_mem (lib : Library) (sem : String → String → ℚ)
    (q : String) (n : Nat) (g : Option String) (ids : List String)
    (r : MatchResult) (hr : r ∈ query_semantic lib sem q n g ids) :
    ids.contains r.id = false ∧
    ∃ e : Entry, e ∈ lib ∧ r.id = e.id ∧
      r.compatibility_score = 1 - sem q e.id := by
  simp only [query_semantic] at hr
  obtain ⟨p, hp, hpr⟩ := List.mem_map.mp hr
  have hp2 := List.take_subset _ _ hp
  split at hp2
  · rename_i hempty
    rw [List.isEmpty_iff] at hempty
    obtain ⟨helib, _, hdist⟩ := collectionQuery_mem _ _ _ _ _ _ hp2
    subst hpr
    subst hempty
    exact ⟨rfl, p.1, helib, rfl, by rw [hdist]⟩
  · rcases List.mem_filter.mp hp2 with ⟨hp3, hp4⟩
    obtain ⟨helib, _, hdist⟩ := collectionQuery_mem _ _ _ _ _ _ hp3
    have hco : ids.contains p.1.id = false := by
      cases hco : ids.contains p.1.id
      · rfl
      · rw [hco] at hp4
        cases hp4
    subst hpr
    exact ⟨hco, p.1, helib, rfl, by rw [hdist]⟩

/-- A successful `query_hybrid` call returns at most `max_results` elements
and never the target song. -/
theorem query_hybrid_ok_mem {lib : Library} {sem : String → String → ℚ}
    {tid : String} {n : Nat} {g sq : Option String} {out : List MatchResult}
    (h : query_hybrid lib sem tid n g sq = .ok out) :
    out.length ≤ n ∧ ∀ r ∈ out, r.id ≠ tid := by
  simp only [query_hybrid] at h
  split at h
  · cases h
  · rename_i target htarget
    split at h
    · cases h
    · split at h
      · cases h
      · rename_i harmonic hharm
        split at h
        · cases h
          exact ⟨by simp, by simp⟩
        · cases h
          refine ⟨List.length_take_le _ _, ?_⟩
          intro r hr
          have hr2 := List.take_subset _ _ hr
          rw [mem_sortByDesc] at hr2
          obtain ⟨p, hp, hfp⟩ := List.mem_filterMap.mp hr2
          split at hfp
          · cases hfp
          · rename_i hm hfind
            have hmem := List.mem_of_find?_eq_some hfind
            have hbeq := List.find?_some hfind
            have hmid : hm.id = p.1.id := by simpa using hbeq
            obtain ⟨_, ks, hks, hall⟩ := query_harmonic_ok_inv hharm
            obtain ⟨e, _, _, hcontains, hid, _⟩ := hall hm hmem
            have hne : e.id ≠ tid := by
              intro hh
              rw [hh] at hcontains
              simp at hcontains
            cases hfp
            intro hEq
            rw [← hmid, hid] at hEq
            exact hne hEq

end AIMixer

namespace AIMixer

/-- C4 counterexample: on the concrete library `lib4`, harmonic `find_match`
returns `[songY (0.825), songX (0.895)]` — the harmonic query ranked songY
first, but `_enhance_match_result` re-scored both without re-sorting, so the
returned `compatibility_score`s are *increasing*, violating the claimed
non-increasing order. -/
theorem find_match_not_sorted_counterexample :
    find_match lib4 sem4 "target" Criteria.harmonic none none 5 =
      .ok [c4OutY, c4OutX] ∧
    c4OutY.compatibility_score = 33/40 ∧
    c4OutX.compatibility_score = 179/200 ∧
    ¬ List.Sorted (fun a b : ℚ => b ≤ a)
      (scoresOf (find_match lib4 sem4 "target" Criteria.harmonic none none
        5)) := by
  have hok : find_match lib4 sem4 "target" Criteria.harmonic none none 5 =
      .ok [c4OutY, c4OutX] := by
    with_unfolding_all rfl
  have hscores : scoresOf (find_match lib4 sem4 "target" Criteria.harmonic
      none none 5) = [33/40, 179/200] := by
    rw [hok]
    with_unfolding_all rfl
  refine ⟨hok, by with_unfolding_all rfl, by with_unfolding_all rfl, ?_⟩
  rw [hscores]
  intro hs
  have h2 := (List.sorted_cons.mp hs).1 (179/200) (by simp)
  norm_num at h2

/-- C4 amended: for *every* strategy, library, oracle and arguments, a
successful `find_match` call returns at most `max_results` results and never
the target song itself.  (The sortedness part of the original claim fails:
the list is sorted by the strategy's own pre-enhancement scores, but the
recomputed scores returned to the caller need not be non-increasing.) -/
theorem find_match_length_and_target_exclusion
    (lib : Library) (sem : String → String → ℚ) (tid : String)
    (criteria : Criteria) (g sq : Option String) (n : Nat)
    (out : List MatchResult)
    (h : find_match lib sem tid criteria g sq n = .ok out) :
    out.length ≤ n ∧ ∀ r ∈ out, r.id ≠ tid := by
  simp only [find_match] at h
  split at h
  · cases h
  · rename_i target htarget
    split at h
    · cases h
    · rename_i results hrouted
      constructor
      · rw [mapExcept_ok_length _ h]
        exact List.length_take_le _ _
      · intro r hr
        obtain ⟨a, ha, hfa⟩ := mapExcept_ok_mem _ h r hr
        have haid : r.id = a.id := by
          split at hfa
          · cases hfa
            rfl
          · cases hfa
        have ha2 := List.take_subset _ _ ha
        rw [haid]
        cases criteria with
        | harmonic =>
          dsimp only at hrouted
          obtain ⟨_, ks, hks, hall⟩ := query_harmonic_ok_inv hrouted
          obtain ⟨e, _, _, hcontains, hid, _⟩ := hall a ha2
          intro hEq
          rw [hid] at hEq
          rw [hEq] at hcontains
          simp at hcontains
        | semantic =>
          dsimp only at hrouted
          repeat' split at hrouted
          all_goals try cases hrouted
          all_goals
            obtain ⟨hcontains, _⟩ :=
              query_semantic_mem _ _ _ _ _ _ a ha2
          all_goals
            intro hEq
          all_goals
            rw [hEq] at hcontains
          all_goals
            simp at hcontains
        | hybrid =>
          dsimp only at hrouted
          exact (query_hybrid_ok_mem hrouted).2 a ha2

/-- Witness for the amended C4 at the concrete harmonic run on `lib4`. -/
theorem find_match_length_and_target_exclusion_witness :
    ([c4OutY, c4OutX] : List MatchResult).length ≤ 5 ∧
    c4OutY.id ≠ "target" :=
  ⟨(find_match_length_and_target_exclusion lib4 sem4 "target"
      Criteria.harmonic none none 5 [c4OutY, c4OutX]
      (by with_unfolding_all rfl)).1,
   (find_match_length_and_target_exclusion lib4 sem4 "target"
      Criteria.harmonic none none 5 [c4OutY, c4OutX]
      (by with_unfolding_all rfl)).2 c4OutY (List.mem_cons_self _ _)⟩

end AIMixer

namespace AIMixer

/-- Bounds of the clamped compatibility score (shared by the C9 conjuncts). -/
theorem scorer_ok_bounds (a b : SongMetadata) (w : Option Weights)
    (res : ℚ × List String)
    (h : calculate_compatibility_score a b w = .ok res) :
    0 ≤ res.1 ∧ res.1 ≤ 1 := by
  simp only [calculate_compatibility_score] at h
  split at h
  · cases h
  · cases h
    exact ⟨le_min (by norm_num) (le_max_left 0 _), min_le_left _ _⟩

/-- Over every valid target key, every key in its `_get_compatible_keys` list
is at `_camelot_distance` 0 or 1 from it (exhaustive check). -/
theorem compatible_key_distance_le_one :
    (validKeys.all fun tk =>
      match getCompatibleKeys tk with
      | .ok ks => ks.all fun k =>
          match queriesCamelotDistance tk k with
          | some d => decide (0 ≤ d) && decide (d ≤ 1)
          | none => false
      | .error _ => false) = true := by
  decide

end AIMixer

namespace AIMixer

/-- C9 counterexample: a `query_semantic` call over `lib4` whose vector-store
distances are 3/2 (legitimate for cosine distance, which ranges over [0,2])
returns compatibility scores of −1/2 — outside [0,1]: the similarity
`1.0 - distance` is never clamped. -/
theorem query_semantic_negative_score_counterexample :
    (query_semantic lib4 semFar "gloomy" 5 none []).map
      (fun r => r.compatibility_score) = [-(1/2), -(1/2), -(1/2)] ∧
    ¬ ((0:ℚ) ≤ -(1/2)) := by
  exact ⟨by with_unfolding_all rfl, by norm_num⟩

/-- C9 amended: `calculate_compatibility_score` (any pair, any weights) and
every element returned by `find_match` (any strategy) have scores clamped to
[0,1]; `query_harmonic` scores lie in [0,1] under the default tolerance with
a positive target BPM and a valid target key; but `query_semantic`'s
`1 − distance` score lies in [0,1] only when the store's distances do — a
distance above 1 yields a negative score (see the counterexample). -/
theorem scoring_calls_bounds :
    (∀ (a b : SongMetadata) (w : Option Weights) (res : ℚ × List String),
      calculate_compatibility_score a b w = .ok res →
      0 ≤ res.1 ∧ res.1 ≤ 1) ∧
    (∀ (lib : Library) (sem : String → String → ℚ) (tid : String)
      (c : Criteria) (g sq : Option String) (n : Nat)
      (out : List MatchResult), find_match lib sem tid c g sq n = .ok out →
      ∀ r ∈ out, 0 ≤ r.compatibility_score ∧ r.compatibility_score ≤ 1) ∧
    (∀ (lib : Library) (tb : ℚ) (tk : String) (n : Nat) (ids : List String)
      (out : List MatchResult), 0 < tb → tk ∈ validKeys →
      query_harmonic lib tb tk none n ids = .ok out →
      ∀ r ∈ out, 0 ≤ r.compatibility_score ∧ r.compatibility_score ≤ 1) ∧
    (∀ (lib : Library) (sem : String → String → ℚ) (q : String) (n : Nat)
      (g : Option String) (ids : List String),
      (∀ i : String, 0 ≤ sem q i ∧ sem q i ≤ 1) →
      ∀ r ∈ query_semantic lib sem q n g ids,
        0 ≤ r.compatibility_score ∧ r.compatibility_score ≤ 1) := by
  refine ⟨scorer_ok_bounds, ?_, ?_, ?_⟩
  · intro lib sem tid c g sq n out h r hr
    simp only [find_match] at h
    split at h
    · cases h
    · rename_i target htarget
      split at h
      · cases h
      · rename_i results hrouted
        obtain ⟨a, ha, hfa⟩ := mapExcept_ok_mem _ h r hr
        split at hfa
        · rename_i sc rs hsc
          cases hfa
          exact scorer_ok_bounds _ _ _ _ hsc
        · cases hfa
  · intro lib tb tk n ids out htb htk h r hr
    obtain ⟨_, ks, hks, hall⟩ := query_harmonic_ok_inv h
    obtain ⟨e, helib, hwhere, _, _, _, bpm, cam, d, hbpm, hcam, hd, hscore⟩ :=
      hall r hr
    unfold harmonicWhere at hwhere
    rw [hbpm, hcam] at hwhere
    simp only [Bool.and_eq_true, decide_eq_true_eq, Option.getD_none]
      at hwhere
    have hkb := List.all_eq_true.mp compatible_key_distance_le_one tk htk
    rw [hks] at hkb
    have hcamks : cam ∈ ks := by
      have h2 := hwhere.2
      simpa using h2
    have hdb := List.all_eq_true.mp hkb cam hcamks
    rw [hd] at hdb
    simp only [Bool.and_eq_true, decide_eq_true_eq] at hdb
    rw [hscore]
    have hlo := hwhere.1.1
    have hhi := hwhere.1.2
    have h2 : 0 ≤ |bpm - tb| / tb := div_nonneg (abs_nonneg _) htb.le
    have h3 : |bpm - tb| / tb ≤ 5/100 := by
      rw [div_le_iff₀ htb]
      rw [abs_le]
      constructor <;> nlinarith
    have h4 : (0:ℚ) ≤ (d:ℚ) := by exact_mod_cast hdb.1
    have h5 : (d:ℚ) ≤ 1 := by exact_mod_cast hdb.2
    constructor <;> nlinarith
  · intro lib sem q n g ids hsem r hr
    obtain ⟨_, e, _, _, hscore⟩ := query_semantic_mem _ _ _ _ _ _ r hr
    rw [hscore]
    have hb := hsem e.id
    exact ⟨by linarith [hb.2], by linarith [hb.1]⟩

end AIMixer

namespace AIMixer

/-- Witness for the amended C9: one concrete instantiation per conjunct
(scorer on the empty-metadata pair; harmonic `find_match` and
`query_harmonic` on `lib4`; `query_semantic` with in-range distances). -/
theorem scoring_calls_bounds_witness :
    (0 ≤ (1:ℚ) ∧ (1:ℚ) ≤ 1) ∧
    (0 ≤ c4OutY.compatibility_score ∧ c4OutY.compatibility_score ≤ 1) ∧
    (0 ≤ c9HOutT.compatibility_score ∧ c9HOutT.compatibility_score ≤ 1) ∧
    (0 ≤ c9SOutT.compatibility_score ∧ c9SOutT.compatibility_score ≤ 1) :=
  ⟨scoring_calls_bounds.1 emptyMeta emptyMeta none
      (1, ["BPM: (perfect match, <2% diff)", "Key: (perfect match)",
           "Energy: (similar vibe)", "Genre: (same genre)"])
      (by with_unfolding_all rfl),
   scoring_calls_bounds.2.1 lib4 sem4 "target" Criteria.harmonic none none 5
      [c4OutY, c4OutX] (by with_unfolding_all rfl) c4OutY
      (List.mem_cons_self _ _),
   scoring_calls_bounds.2.2.1 lib4 100 "8B" 5 []
      [c9HOutT, c9HOutY, c9HOutX] (by norm_num) (by decide)
      (by with_unfolding_all rfl) c9HOutT (List.mem_cons_self _ _),
   scoring_calls_bounds.2.2.2 lib4 sem4 "calm" 5 none []
      (fun i => by constructor <;> norm_num [sem4]) c9SOutT
      (by
        rw [show query_semantic lib4 sem4 "calm" 5 none [] =
            [c9SOutT, { c9SOutT with id := "songX", metadata := metaX4 },
             { c9SOutT with id := "songY", metadata := metaY4 }] from
          by with_unfolding_all rfl]
        exact List.mem_cons_self _ _)⟩

end AIMixer
